import Mathlib

set_option maxRecDepth 4000

/-!
Shallow embedding of `src/app/lib/actions.ts` from the `nextjs-dashboard`
repository: the server actions `createInvoice`, `updateInvoice`,
`deleteInvoice` and `authenticate`, together with the Zod form schema
(`FormSchema` / `CreateInvoice` / `UpdateInvoice`) and the helper
`validateInvoiceForms`.

Modelling conventions:
* A value read from a `FormData` via `formData.get(key)` is a string, a
  `File`, or `null` when the key is absent; `FormVal` below covers these
  three cases.  The optional `formData?` parameter is modelled as always
  supplied, which is how Next.js invokes a server action.
* JavaScript numbers are modelled by `JsNum`: `nan`, the two infinities, and
  finite values as exact rationals.  `parseJsNumber` models the `Number()`
  string coercion used by `z.coerce.number()`: whitespace-trimmed decimal
  literals with optional sign, fraction and exponent, the unsigned
  hexadecimal / binary / octal forms, `Infinity`, and the empty string
  (which coerces to 0); everything else coerces to `nan`.  On top of this
  exact-valued layer, `ratToDouble` / `doubleMul` model IEEE-754 binary64
  rounding, used for the numerical claim about the persisted
  `amount * 100`.
* The database executor and the cache-invalidation calls are modelled by
  boolean parameters saying whether the call raises; the side effects the
  action performed are returned in an explicit effects record.
* A TypeScript function that may throw is modelled with `Except`; the
  actions whose bodies are wrapped in a catch-all `try/catch` return plain
  values, since no exception can escape them.
-/

deriving instance DecidableEq for Except

/-- A value returned by `formData.get(key)`: a string, a `File` object, or
`null` when the key is absent from the form. -/
inductive FormVal
  | str (s : String)
  | file
  | nullv
deriving DecidableEq

/-- The three form fields the invoice actions read:
`formData.get('customerId')`, `formData.get('amount')`,
`formData.get('status')`. -/
structure FormData where
  customerId : FormVal
  amount : FormVal
  status : FormVal
deriving DecidableEq

/-- A JavaScript number: `NaN`, `Infinity`, `-Infinity`, or a finite value
(represented exactly as a rational). -/
inductive JsNum
  | nan
  | inf
  | negInf
  | fin (q : ℚ)
deriving DecidableEq

/-- JavaScript unary negation on numbers. -/
def JsNum.neg : JsNum → JsNum
  | .nan => .nan
  | .inf => .negInf
  | .negInf => .inf
  | .fin q => .fin (-q)

/-- The comparison `x > 0` on a JavaScript number (`NaN > 0` is false). -/
def JsNum.gtZero : JsNum → Bool
  | .nan => false
  | .inf => true
  | .negInf => false
  | .fin q => decide (0 < q)

/-- Multiplication by the literal `100`, as in `const amountInCents = amount * 100;`. -/
def JsNum.mul100 : JsNum → JsNum
  | .nan => .nan
  | .inf => .inf
  | .negInf => .negInf
  | .fin q => .fin (q * 100)

/-- Whitespace stripped by the `Number()` string coercion (ASCII whitespace,
no-break space, BOM). -/
def isJsWhitespace (c : Char) : Bool :=
  let n := c.toNat
  n == 32 || (9 ≤ n && n ≤ 13) || n == 160 || n == 65279

/-- Strip leading and trailing whitespace, as the `Number()` coercion does. -/
def jsTrim (s : String) : List Char :=
  ((s.toList.dropWhile isJsWhitespace).reverse.dropWhile isJsWhitespace).reverse

/-- Numeric value of a decimal digit character. -/
def digitVal (c : Char) : Nat := c.toNat - 48

/-- Value of a list of decimal digit characters read most-significant first. -/
def decDigitsVal (cs : List Char) : Nat :=
  cs.foldl (fun a c => 10 * a + digitVal c) 0

/-- Split a character list into its longest prefix of decimal digits and the
rest. -/
def takeDigits : List Char → List Char × List Char
  | [] => ([], [])
  | c :: cs =>
    if c.isDigit then
      let (d, r) := takeDigits cs
      (c :: d, r)
    else ([], c :: cs)

/-- Value of a nonempty all-digit character list; `none` otherwise. -/
def allDigitsVal (cs : List Char) : Option Nat :=
  if !cs.isEmpty && cs.all Char.isDigit then some (decDigitsVal cs) else none

/-- Parse the optional exponent part of a decimal literal: empty input means
exponent 0; otherwise `e`/`E`, an optional sign, and at least one digit,
consuming the whole input. -/
def parseExpPart : List Char → Option Int
  | [] => some 0
  | c :: cs =>
    if c = 'e' ∨ c = 'E' then
      match cs with
      | '+' :: r => (allDigitsVal r).map (fun n => (n : Int))
      | '-' :: r => (allDigitsVal r).map (fun n => -(n : Int))
      | r => (allDigitsVal r).map (fun n => (n : Int))
    else none

/-- The exact rational value of a decimal literal with integer-part digits
`ip`, fraction digits `fp` and decimal exponent `e`: the mantissa read as an
integer, scaled by ten to the power `e` minus the fraction length. -/
def decLiteralVal (ip fp : List Char) (e : Int) : ℚ :=
  let mant : Nat := decDigitsVal ip * 10 ^ fp.length + decDigitsVal fp
  let e2 : Int := e - fp.length
  if 0 ≤ e2 then mkRat (mant * 10 ^ e2.toNat) 1 else mkRat mant (10 ^ (-e2).toNat)

/-- Parse an unsigned decimal literal (`digits`, `digits.digits`, `.digits`,
each with an optional exponent), consuming the whole input. -/
def parseStrDecimal (cs : List Char) : Option ℚ :=
  let (ip, r1) := takeDigits cs
  match r1 with
  | '.' :: r2 =>
    let (fp, r3) := takeDigits r2
    if ip.isEmpty && fp.isEmpty then none
    else (parseExpPart r3).map fun e => decLiteralVal ip fp e
  | _ =>
    if ip.isEmpty then none
    else (parseExpPart r1).map fun e => decLiteralVal ip [] e

/-- Numeric value of a digit character in the given radix; `none` when the
character is not a digit of that radix. -/
def digitValInRadix (radix : Nat) (c : Char) : Option Nat :=
  let n := c.toNat
  let v :=
    if 48 ≤ n ∧ n ≤ 57 then n - 48
    else if 97 ≤ n ∧ n ≤ 122 then n - 87
    else if 65 ≤ n ∧ n ≤ 90 then n - 55
    else 99
  if v < radix then some v else none

/-- Value of a nonempty character list in the given radix; `none` when empty
or when any character is out of range. -/
def radixVal (radix : Nat) (cs : List Char) : Option Nat :=
  if cs.isEmpty then none
  else
    cs.foldl
      (fun acc c =>
        match acc, digitValInRadix radix c with
        | some a, some v => some (radix * a + v)
        | _, _ => none)
      (some 0)

/-- Parse the body of a possibly signed numeric literal: `Infinity` or a
decimal literal (hex/binary/octal forms do not admit a sign). -/
def parseSignedBody (cs : List Char) : JsNum :=
  if cs = "Infinity".toList then .inf
  else
    match parseStrDecimal cs with
    | some q => .fin q
    | none => .nan

/-- The `Number()` coercion applied to a string, as performed by
`z.coerce.number()`: trim whitespace; empty means 0; optional sign on
`Infinity` or a decimal literal; unsigned `0x`/`0b`/`0o` radix literals;
anything else is `NaN`. -/
def parseJsNumber (s : String) : JsNum :=
  match jsTrim s with
  | [] => .fin 0
  | '+' :: r => parseSignedBody r
  | '-' :: r => (parseSignedBody r).neg
  | '0' :: x :: r =>
    if x = 'x' ∨ x = 'X' then (radixVal 16 r).elim .nan (fun n => .fin (mkRat n 1))
    else if x = 'b' ∨ x = 'B' then (radixVal 2 r).elim .nan (fun n => .fin (mkRat n 1))
    else if x = 'o' ∨ x = 'O' then (radixVal 8 r).elim .nan (fun n => .fin (mkRat n 1))
    else parseSignedBody ('0' :: x :: r)
  | cs => parseSignedBody cs

/-- The `Number()` coercion applied to a form value: `Number(null)` is 0 and
`Number(file)` is `NaN` (a `File` converts via its string form, which is not
numeric). -/
def parseFormNumber : FormVal → JsNum
  | .str s => parseJsNumber s
  | .file => .nan
  | .nullv => .fin 0

/-- The invoice status enum `z.enum(['pending', 'paid'])`. -/
inductive Status
  | pending
  | paid
deriving DecidableEq

/-- The `customerId` field check:
`z.string(\x7b invalid_type_error: 'Please select a customer.' \x7d)`.
Any string passes; a non-string (absent key or `File`) yields the custom
invalid-type message. -/
def checkCustomerId : FormVal → Except String String
  | .str s => .ok s
  | .file => .error "Please select a customer."
  | .nullv => .error "Please select a customer."

/-- The `amount` field check:
`z.coerce.number().gt(0, \x7b message: 'Please enter an amount greater than $0.' \x7d)`.
The value is first coerced with `Number()`; `NaN` fails the type check with
Zod's default message, and a number not strictly greater than 0 fails the
`gt` check with the custom message. -/
def checkAmount (v : FormVal) : Except String JsNum :=
  match parseFormNumber v with
  | .nan => .error "Expected number, received nan"
  | n => if n.gtZero then .ok n else .error "Please enter an amount greater than $0."

/-- Zod default message for an invalid enum value on this schema:
the options joined with a bar and the received value, each in single
quotes. -/
def enumDefaultError (s : String) : String :=
  "Invalid enum value. Expected \x27pending\x27 | \x27paid\x27, received \x27" ++ s ++ "\x27"

/-- The `status` field check:
`z.enum(['pending', 'paid'], \x7b invalid_type_error: 'Please select an invoice status.' \x7d)`.
Exactly the strings `pending` and `paid` pass.  A string outside the enum
raises an invalid-enum-value issue, to which `invalid_type_error` does not
apply, so it carries the Zod default message naming the received value; a
non-string (absent key or `File`) raises an invalid-type issue and carries
the custom message. -/
def checkStatus : FormVal → Except String Status
  | .str s =>
    if s = "pending" then .ok .pending
    else if s = "paid" then .ok .paid
    else .error (enumDefaultError s)
  | .file => .error "Please select an invoice status."
  | .nullv => .error "Please select an invoice status."

/-- The per-field error arrays produced by
`validatedFields.error.flatten().fieldErrors`: a field is present in the
mapping exactly when its check failed, and then carries its messages. -/
structure FieldErrors where
  customerId : Option (List String) := none
  amount : Option (List String) := none
  status : Option (List String) := none
deriving DecidableEq

/-- The contribution of one field check to `fieldErrors`. -/
def errList {α : Type} : Except String α → Option (List String)
  | .error m => some [m]
  | .ok _ => none

/-- The output type of a successful parse through the
`CreateInvoice` / `UpdateInvoice` schema (`FormSchema` without `id` and
`date`). -/
structure ParsedInvoice where
  customerId : String
  amount : JsNum
  status : Status
deriving DecidableEq

/-- `CreateInvoice.safeParse` applied to the three form values (the
`UpdateInvoice` schema is the same omission of `FormSchema`, so both
schemas parse identically).  Zod checks the object's fields independently
and aggregates all field errors rather than stopping at the first. -/
def safeParseCreateInvoice (fd : FormData) : Except FieldErrors ParsedInvoice :=
  match checkCustomerId fd.customerId, checkAmount fd.amount, checkStatus fd.status with
  | .ok c, .ok a, .ok s => .ok ⟨c, a, s⟩
  | rc, ra, rs => .error ⟨errList rc, errList ra, errList rs⟩

/-- The `State` result shape of the invoice actions. -/
structure State where
  id : Option String := none
  errors : Option FieldErrors := none
  message : Option String := none
deriving DecidableEq

/-- `validateInvoiceForms`: run `CreateInvoice.safeParse` on the form values;
on failure return the flattened field errors with the fixed top-level
message, otherwise return `null`. -/
def validateInvoiceForms (fd : FormData) : Option State :=
  match safeParseCreateInvoice fd with
  | .error fe =>
    some { errors := some fe, message := some "Missing Fields. Failed to Create Invoice." }
  | .ok _ => none

/-- Side effects performed by `createInvoice`: the row inserted by the SQL
`INSERT` (customer id, amount in cents, status, date), if any, and whether
`revalidateRedirectPath('/dashboard/invoices')` was invoked.  The body of
`revalidateRedirectPath` lives in `./utils` and is outside this model; the
flag records only that the call was reached. -/
structure CreateEffects where
  inserted : Option (String × JsNum × Status × String) := none
  revalidated : Bool := false
deriving DecidableEq

/-- `createInvoice(prevState?, formData?)`.  The unused `prevState` is
omitted.  `sqlFails` says whether the `INSERT` raises; `today` is the date
string computed from `new Date()`.  The whole body up to the `INSERT` is
inside `try`, whose `catch` returns the generic failure message; on success
the function falls through the `try`, invokes
`revalidateRedirectPath('/dashboard/invoices')` and returns `undefined`
(modelled as `none`). -/
def createInvoice (sqlFails : Bool) (today : String) (fd : FormData) :
    Option State × CreateEffects :=
  match validateInvoiceForms fd with
  | some validationError => (some validationError, {})
  | none =>
    match safeParseCreateInvoice fd with
    | .error _ => (some { message := some "Something went wrong" }, {})
    | .ok p =>
      if sqlFails then (some { message := some "Something went wrong" }, {})
      else (none, { inserted := some (p.customerId, p.amount.mul100, p.status, today),
                    revalidated := true })

/-- Side effects performed by `updateInvoice`: the SQL `UPDATE` row
(id matched, customer id, amount in cents, status), if any, and whether
`revalidateRedirectPath('/dashboard/invoices')` was invoked. -/
structure UpdateEffects where
  updated : Option (Option String × String × JsNum × Status) := none
  revalidated : Bool := false
deriving DecidableEq

/-- `updateInvoice(id?, prevState?, formData?)`.  Identical structure to
`createInvoice`, except the persistence statement is an `UPDATE` matched by
`id` and the `catch` returns the message `Somethign went wrong` as spelled
in the source. -/
def updateInvoice (sqlFails : Bool) (id : Option String) (fd : FormData) :
    Option State × UpdateEffects :=
  match validateInvoiceForms fd with
  | some validationError => (some validationError, {})
  | none =>
    match safeParseCreateInvoice fd with
    | .error _ => (some { message := some "Somethign went wrong" }, {})
    | .ok p =>
      if sqlFails then (some { message := some "Somethign went wrong" }, {})
      else (none, { updated := some (id, p.customerId, p.amount.mul100, p.status),
                    revalidated := true })

/-- Side effects performed by `deleteInvoice`: the id matched by the SQL
`DELETE`, if the statement succeeded, and whether
`revalidatePath('/dashboard/invoices')` completed. -/
structure DeleteEffects where
  deleted : Option String := none
  revalidated : Bool := false
deriving DecidableEq

/-- `deleteInvoice(id)`: no validation; `try` runs the `DELETE`, then
`revalidatePath('/dashboard/invoices')`, then returns the success message;
the `catch` turns any raise from either call into the generic failure
message. -/
def deleteInvoice (sqlFails revalidateFails : Bool) (id : String) :
    State × DeleteEffects :=
  if sqlFails then ({ message := some "Something went wrong" }, {})
  else if revalidateFails then
    ({ message := some "Something went wrong" }, { deleted := some id })
  else
    ({ message := some "Deleted Invoice." }, { deleted := some id, revalidated := true })

/-- The outcome of the `signIn('credentials', formData)` call: success, a
raised `AuthError` carrying its `type` tag, or a raised error that is not an
`AuthError` (carried opaquely as a string payload). -/
inductive SignInOutcome
  | success
  | authError (type : String)
  | otherError (payload : String)
deriving DecidableEq

/-- `authenticate(prevState, formData)`: on success return `undefined`; an
`AuthError` of type `CredentialsSignin` maps to `Invalid credentials.`, any
other `AuthError` to `Something went wrong.`, and a non-`AuthError` raise is
re-thrown unchanged (the `Except.error` case). -/
def authenticate : SignInOutcome → Except String (Option String)
  | .success => .ok none
  | .authError t =>
    if t = "CredentialsSignin" then .ok (some "Invalid credentials.")
    else .ok (some "Something went wrong.")
  | .otherError e => .error e

/-- Fuel-driven fast binary exponentiation of two, written so large powers
evaluate by reduction in logarithmically many squarings; `pow2_eq` below
shows it computes `2 ^ e`. -/
def pow2Aux : Nat → Nat → Nat
  | 0, _ => 1
  | fuel + 1, e =>
    if e = 0 then 1
    else
      let h := pow2Aux fuel (e / 2)
      if e % 2 = 0 then h * h else 2 * h * h

/-- Two to the power of a natural number. -/
def pow2 (e : Nat) : Nat := pow2Aux e e

/-- Fuel-driven floor of the base-2 logarithm of a natural number, written
so it evaluates by kernel reduction. -/
def natLog2Aux : Nat → Nat → Nat
  | 0, _ => 0
  | fuel + 1, n => if n ≤ 1 then 0 else natLog2Aux fuel (n / 2) + 1

/-- Floor of the base-2 logarithm of a natural number (0 for 0 and 1). -/
def natLog2 (n : Nat) : Nat := natLog2Aux n n

/-- The rational value two to the power of an integer. -/
def ratPow2 (e : Int) : ℚ :=
  if 0 ≤ e then mkRat (pow2 e.toNat) 1 else mkRat 1 (pow2 (-e).toNat)

/-- Floor of the base-2 logarithm of a positive rational. -/
def ratFloorLog2 (q : ℚ) : Int :=
  let a : Int := natLog2 q.num.toNat
  let b : Int := natLog2 q.den
  if q < ratPow2 (a - b) then a - b - 1 else a - b

/-- Round the nonnegative rational `n / d` to the nearest integer, ties to
even. -/
def roundHalfEven (n d : Nat) : Nat :=
  let fl := n / d
  let r := n % d
  if 2 * r < d then fl
  else if d < 2 * r then fl + 1
  else if fl % 2 = 0 then fl else fl + 1

/-- Round a positive rational to the nearest IEEE-754 binary64 value: a
53-bit significand scaled by a power of two, round to nearest with ties to
even, gradual underflow below the minimum normal exponent, overflow to
`Infinity` at `2 ^ 1024`. -/
def ratToDoublePos (q : ℚ) : JsNum :=
  let e0 : Int := ratFloorLog2 q - 52
  let e : Int := if e0 < -1074 then -1074 else e0
  let sn : Nat := if 0 ≤ e then q.num.toNat else q.num.toNat * pow2 (-e).toNat
  let sd : Nat := if 0 ≤ e then q.den * pow2 e.toNat else q.den
  let m : Nat := roundHalfEven sn sd
  let v : ℚ := if 0 ≤ e then mkRat (m * pow2 e.toNat) 1 else mkRat m (pow2 (-e).toNat)
  if ratPow2 1024 ≤ v then .inf else .fin v

/-- Round any rational to the nearest IEEE-754 binary64 value. -/
def ratToDouble (q : ℚ) : JsNum :=
  if q.num = 0 then .fin (mkRat 0 1)
  else if q.num < 0 then (ratToDoublePos (-q)).neg
  else ratToDoublePos q

/-- The exact rational product, computed in normalized form; the lemma
`ratMul_eq_mul` below shows it agrees with multiplication on the
rationals. -/
def ratMul (x y : ℚ) : ℚ := mkRat (x.num * y.num) (x.den * y.den)

/-- IEEE-754 binary64 multiplication: the exact product of the operands
rounded to the nearest double, with the usual rules for the special
values. -/
def doubleMul (a b : JsNum) : JsNum :=
  match a, b with
  | .fin x, .fin y => ratToDouble (ratMul x y)
  | .nan, _ => .nan
  | _, .nan => .nan
  | .inf, .inf => .inf
  | .inf, .negInf => .negInf
  | .negInf, .inf => .negInf
  | .negInf, .negInf => .inf
  | .inf, .fin x => if x.num = 0 then .nan else if x.num < 0 then .negInf else .inf
  | .fin x, .inf => if x.num = 0 then .nan else if x.num < 0 then .negInf else .inf
  | .negInf, .fin x => if x.num = 0 then .nan else if x.num < 0 then .inf else .negInf
  | .fin x, .negInf => if x.num = 0 then .nan else if x.num < 0 then .inf else .negInf

/-- The binary64 value the `Number()` coercion of a form value actually
produces at machine precision: the exact value of the numeric literal
(`parseFormNumber`) rounded to the nearest double.  This refines the
exact-valued coercion used in the action-level model. -/
def jsNumberDouble (v : FormVal) : JsNum :=
  match parseFormNumber v with
  | .fin q => ratToDouble q
  | n => n

/-- The expression `amount * 100` of `createInvoice` and `updateInvoice`
computed at machine precision: binary64 multiplication of the amount by
100 (itself exactly representable).  This refines the exact-valued
`JsNum.mul100` used in the action-level model. -/
def amountInCentsDouble (amount : JsNum) : JsNum :=
  doubleMul amount (.fin (mkRat 100 1))

/-- A field check that did not succeed contributes an entry (its message
list) to the flattened field errors. -/
theorem errList_ne_none {α : Type} {r : Except String α}
    (h : r.isOk = false) : errList r ≠ none := by
  cases r <;> simp_all [errList, Except.isOk, Except.toBool]

/-- Fast binary exponentiation with enough fuel computes the power. -/
theorem pow2Aux_eq (fuel : Nat) : ∀ e : Nat, e ≤ fuel → pow2Aux fuel e = 2 ^ e := by
  induction fuel with
  | zero =>
    intro e he
    have h0 : e = 0 := Nat.le_zero.mp he
    simp [h0, pow2Aux]
  | succ f ih =>
    intro e he
    by_cases he0 : e = 0
    · simp [he0, pow2Aux]
    · have hdiv : e / 2 ≤ f := by omega
      have hrec := ih (e / 2) hdiv
      simp only [pow2Aux, he0, if_false, hrec]
      set m := e / 2 with hm
      by_cases hp : e % 2 = 0
      · have h2 : e = m + m := by omega
        simp only [hp, if_true]
        rw [← pow_add, h2]
      · have h2 : e = m + m + 1 := by omega
        simp only [hp, if_false]
        rw [mul_assoc, ← pow_add, h2, pow_succ, mul_comm]

/-- The fast exponentiation computes two to the power of its argument. -/
theorem pow2_eq (e : Nat) : pow2 e = 2 ^ e :=
  pow2Aux_eq e e (Nat.le_refl e)

/-- Claim C1: when at least one of the three fields fails its validation
rule, `createInvoice` and `updateInvoice` both return the flattened field
errors — with an entry for every failing field, not only the first — under
the top-level message `Missing Fields. Failed to Create Invoice.`, and no
persistence statement is issued. -/
theorem createInvoice_updateInvoice_validation_errors
    (fd : FormData) (sqlFails : Bool) (today : String) (id : Option String)
    (h : (checkCustomerId fd.customerId).isOk = false ∨
         (checkAmount fd.amount).isOk = false ∨
         (checkStatus fd.status).isOk = false) :
    ∃ fe : FieldErrors,
      createInvoice sqlFails today fd =
        (some { errors := some fe,
                message := some "Missing Fields. Failed to Create Invoice." }, {}) ∧
      updateInvoice sqlFails id fd =
        (some { errors := some fe,
                message := some "Missing Fields. Failed to Create Invoice." }, {}) ∧
      ((checkCustomerId fd.customerId).isOk = false → fe.customerId ≠ none) ∧
      ((checkAmount fd.amount).isOk = false → fe.amount ≠ none) ∧
      ((checkStatus fd.status).isOk = false → fe.status ≠ none) := by
  obtain ⟨c, a, s⟩ := fd
  refine ⟨⟨errList (checkCustomerId c), errList (checkAmount a), errList (checkStatus s)⟩,
    ?_, ?_, fun hc => errList_ne_none hc, fun ha => errList_ne_none ha,
    fun hs => errList_ne_none hs⟩ <;>
  · cases hc : checkCustomerId c <;> cases ha : checkAmount a <;> cases hs : checkStatus s <;>
      simp_all [createInvoice, updateInvoice, validateInvoiceForms, safeParseCreateInvoice,
        errList, Except.isOk, Except.toBool]

/-- Claim C1, witness: a form with all three fields invalid (absent
customer, zero amount, unknown status) yields an entry for each of the
three fields. -/
theorem createInvoice_updateInvoice_validation_errors_witness :
    ∃ fe : FieldErrors,
      createInvoice false "2024-01-01" ⟨.nullv, .str "0", .str "overdue"⟩ =
        (some { errors := some fe,
                message := some "Missing Fields. Failed to Create Invoice." }, {}) ∧
      updateInvoice false (some "i1") ⟨.nullv, .str "0", .str "overdue"⟩ =
        (some { errors := some fe,
                message := some "Missing Fields. Failed to Create Invoice." }, {}) ∧
      fe.customerId ≠ none ∧ fe.amount ≠ none ∧ fe.status ≠ none := by
  obtain ⟨fe, h1, h2, h3, h4, h5⟩ :=
    createInvoice_updateInvoice_validation_errors
      ⟨.nullv, .str "0", .str "overdue"⟩ false "2024-01-01" (some "i1")
      (Or.inl (by decide))
  exact ⟨fe, h1, h2, h3 (by decide), h4 (by decide), h5 (by decide)⟩

/-- Claim C2: on an input that passes validation, when the persistence call
raises, `updateInvoice` returns a plain message value rather than
propagating the error — but the message in the source reads
`Somethign went wrong`, not the `Something went wrong` the specification
states.  This evaluates the code at such an input and records the
misspelling. -/
theorem updateInvoice_failure_message_misspelled :
    updateInvoice true (some "inv1") ⟨.str "c1", .str "45.5", .str "pending"⟩
      = (some { message := some "Somethign went wrong" }, {}) ∧
    "Somethign went wrong" ≠ "Something went wrong" := by decide

/-- Claim C3, counterexample: the wrong-value string `overdue` is rejected,
but with the Zod default invalid-enum-value message naming the received
value, not with `Please select an invoice status.` as the claim states. -/
theorem checkStatus_wrong_string_message_cex :
    (checkStatus (.str "overdue")).isOk = false ∧
    checkStatus (.str "overdue") ≠ .error "Please select an invoice status." ∧
    checkStatus (.str "overdue") = .error (enumDefaultError "overdue") := by decide

/-- Claim C3 as amended: exactly the strings `pending` and `paid` pass
validation unchanged; every other string (such as `overdue` or the empty
string) is rejected with the Zod default invalid-enum-value message naming
the received value, because `invalid_type_error` does not apply to
invalid-enum-value issues; a missing field (`null`) or a wrong-type value
(`File`) is rejected with `Please select an invoice status.`. -/
theorem checkStatus_messages_spec (s : String)
    (h : s ≠ "pending" ∧ s ≠ "paid") :
    checkStatus (.str s) = .error (enumDefaultError s) ∧
    checkStatus .nullv = .error "Please select an invoice status." ∧
    checkStatus .file = .error "Please select an invoice status." ∧
    checkStatus (.str "pending") = .ok .pending ∧
    checkStatus (.str "paid") = .ok .paid := by
  obtain ⟨h1, h2⟩ := h
  exact ⟨by simp [checkStatus, h1, h2], rfl, rfl, by decide, by decide⟩

/-- Claim C3, witness: the wrong-value string `overdue`. -/
theorem checkStatus_messages_spec_witness :
    checkStatus (.str "overdue") = .error (enumDefaultError "overdue") ∧
    checkStatus .nullv = .error "Please select an invoice status." ∧
    checkStatus .file = .error "Please select an invoice status." ∧
    checkStatus (.str "pending") = .ok .pending ∧
    checkStatus (.str "paid") = .ok .paid :=
  checkStatus_messages_spec "overdue" (by decide)

/-- Claim C4, counterexample: the amount `abc` fails to coerce to a number
and is rejected, but the message attached to it is Zod's default
invalid-type message, not `Please enter an amount greater than $0.` as the
claim states. -/
theorem checkAmount_noncoercible_message_cex :
    (checkAmount (.str "abc")).isOk = false ∧
    checkAmount (.str "abc") ≠ .error "Please enter an amount greater than $0." ∧
    checkAmount (.str "abc") = .error "Expected number, received nan" := by decide

/-- Claim C4 as amended: an amount that fails to coerce to a number is
rejected with Zod's default message `Expected number, received nan`; an
amount that coerces to a value not strictly greater than 0 is rejected with
`Please enter an amount greater than $0.`; an amount that coerces to a
value strictly greater than 0 passes with that value. -/
theorem checkAmount_spec (v : FormVal) :
    (parseFormNumber v = .nan →
      checkAmount v = .error "Expected number, received nan") ∧
    (parseFormNumber v ≠ .nan → (parseFormNumber v).gtZero = false →
      checkAmount v = .error "Please enter an amount greater than $0.") ∧
    ((parseFormNumber v).gtZero = true → checkAmount v = .ok (parseFormNumber v)) := by
  refine ⟨fun h => ?_, fun h1 h2 => ?_, fun h => ?_⟩ <;>
    cases hp : parseFormNumber v <;>
      simp_all [checkAmount, JsNum.gtZero]

/-- Claim C4, witness: `0` and `-5` coerce but are not greater than 0 and
get the amount message; `45.5` passes with its exact value. -/
theorem checkAmount_spec_witness :
    checkAmount (.str "0") = .error "Please enter an amount greater than $0." ∧
    checkAmount (.str "-5") = .error "Please enter an amount greater than $0." ∧
    checkAmount (.str "45.5") = .ok (parseFormNumber (.str "45.5")) :=
  ⟨(checkAmount_spec (.str "0")).2.1 (by decide) (by decide),
   (checkAmount_spec (.str "-5")).2.1 (by decide) (by decide),
   (checkAmount_spec (.str "45.5")).2.2 (by decide)⟩

/-- The normalized-form product agrees with rational multiplication. -/
theorem ratMul_eq_mul (x y : ℚ) : ratMul x y = x * y := by
  rw [ratMul, Rat.mkRat_eq_div]
  push_cast
  rw [← div_mul_div_comm, Rat.num_div_den, Rat.num_div_den]

/-- Claim C5, counterexample: at machine precision the amount `0.07` — a
whole number of hundredths — coerces to the nearest double
5044031582654956 / 2^56, passes validation, and the persisted binary64
product with 100 is 7881299347898369 / 2^50 = 7.000000000000001: it differs
from the exact product amount * 100 (the multiplication rounds) and is not
an integer number of minor currency units. -/
theorem persisted_amount_double_cex :
    jsNumberDouble (.str "0.07") = .fin (mkRat 5044031582654956 72057594037927936) ∧
    (JsNum.gtZero (jsNumberDouble (.str "0.07"))) = true ∧
    amountInCentsDouble (jsNumberDouble (.str "0.07"))
      = .fin (mkRat 7881299347898369 1125899906842624) ∧
    mkRat 7881299347898369 1125899906842624
      ≠ ratMul (mkRat 5044031582654956 72057594037927936) (mkRat 100 1) ∧
    (mkRat 7881299347898369 1125899906842624).den ≠ 1 := by decide

/-- Claim C5 as amended: the value persisted by `createInvoice` and
`updateInvoice` is the IEEE-754 binary64 product `amount * 100` — the exact
rational product rounded to the nearest double — not the exact product
itself; it equals `amount * 100` exactly, and is an integer number of minor
currency units, when amount and product are exactly representable (input
`45.5` persists exactly the integer 4550), but not in general even for an
amount that is a whole number of hundredths (input `0.07` persists
7.000000000000001). -/
theorem persisted_amount_double_spec (x : ℚ) :
    amountInCentsDouble (.fin x) = ratToDouble (x * 100) ∧
    jsNumberDouble (.str "45.5") = .fin (mkRat 91 2) ∧
    amountInCentsDouble (jsNumberDouble (.str "45.5")) = .fin (mkRat 4550 1) ∧
    amountInCentsDouble (jsNumberDouble (.str "0.07"))
      = .fin (mkRat 7881299347898369 1125899906842624) := by
  refine ⟨?_, by decide, by decide, by decide⟩
  have h100 : (mkRat 100 1 : ℚ) = 100 := by
    rw [Rat.mkRat_eq_div]
    norm_num
  simp [amountInCentsDouble, doubleMul, ratMul_eq_mul, h100]

/-- Claim C6, counterexample: when the delete statement succeeds but the
subsequent path invalidation raises, the record has been removed, yet the
returned message is the generic failure, not `Deleted Invoice.` — so the
claim that a successful delete statement yields the success message fails. -/
theorem deleteInvoice_success_claim_cex :
    (deleteInvoice false true "x").2.deleted = some "x" ∧
    (deleteInvoice false true "x").1.message ≠ some "Deleted Invoice." ∧
    (deleteInvoice false true "x").2.revalidated = false := by decide

/-- Claim C6 as amended: `deleteInvoice` performs no validation phase for
any id; when the delete statement and the path invalidation both complete,
it triggers the invalidation of the invoice-listing path and returns
exactly the message `Deleted Invoice.`; when the persistence call raises it
returns exactly the message `Something went wrong` and never propagates
the error. -/
theorem deleteInvoice_outcomes (id : String) (revalidateFails : Bool) :
    deleteInvoice false false id
      = ({ message := some "Deleted Invoice." },
         { deleted := some id, revalidated := true }) ∧
    deleteInvoice true revalidateFails id
      = ({ message := some "Something went wrong" }, {}) := by
  cases revalidateFails <;> simp [deleteInvoice]

/-- Claim C7: `authenticate` returns `Invalid credentials.` for an
`AuthError` of type `CredentialsSignin`, `Something went wrong.` for an
`AuthError` of any other type, re-raises a non-`AuthError` error unchanged,
and returns no value on success. -/
theorem authenticate_spec (t e : String) :
    authenticate .success = .ok none ∧
    authenticate (.authError "CredentialsSignin") = .ok (some "Invalid credentials.") ∧
    (t ≠ "CredentialsSignin" →
      authenticate (.authError t) = .ok (some "Something went wrong.")) ∧
    authenticate (.otherError e) = .error e := by
  refine ⟨rfl, by decide, fun h => ?_, rfl⟩
  simp [authenticate, h]

/-- Claim C7, witness: an `AuthError` of another type (`CallbackRouteError`)
maps to the generic message, and a non-`AuthError` payload is re-raised. -/
theorem authenticate_spec_witness :
    authenticate .success = .ok none ∧
    authenticate (.authError "CredentialsSignin") = .ok (some "Invalid credentials.") ∧
    authenticate (.authError "CallbackRouteError") = .ok (some "Something went wrong.") ∧
    authenticate (.otherError "boom") = .error "boom" := by
  obtain ⟨h1, h2, h3, h4⟩ := authenticate_spec "CallbackRouteError" "boom"
  exact ⟨h1, h2, h3 (by decide), h4⟩

/-- Claim C8, counterexample: the empty string is accepted for `customerId`
— the schema is `z.string(...)` with no nonempty constraint — so a form
whose customer id is the empty string passes the whole validation, contrary
to the claim that only non-empty strings are accepted. -/
theorem checkCustomerId_empty_string_cex :
    checkCustomerId (.str "") = .ok "" ∧
    validateInvoiceForms ⟨.str "", .str "45.5", .str "pending"⟩ = none := by decide

/-- Claim C8 as amended: validation accepts the `customerId` field exactly
when it is a string, the empty string included; when the field is absent or
of the wrong type, the error `Please select a customer.` is attached to
it. -/
theorem checkCustomerId_spec (s : String) :
    checkCustomerId (.str s) = .ok s ∧
    checkCustomerId .nullv = .error "Please select a customer." ∧
    checkCustomerId .file = .error "Please select a customer." :=
  ⟨rfl, rfl, rfl⟩

/-- Claim C9: whenever the aggregate validation pass succeeds, the second
parse of the same raw input through the same schema also succeeds, so with
a functioning store neither action can reach the unexpected-failure branch
through the second parse: both reach their persistence statement. -/
theorem second_parse_always_succeeds
    (fd : FormData) (today : String) (id : Option String)
    (h : validateInvoiceForms fd = none) :
    ∃ p : ParsedInvoice,
      safeParseCreateInvoice fd = .ok p ∧
      (createInvoice false today fd).1 = none ∧
      (createInvoice false today fd).2.inserted ≠ none ∧
      (updateInvoice false id fd).1 = none ∧
      (updateInvoice false id fd).2.updated ≠ none := by
  cases hp : safeParseCreateInvoice fd with
  | error fe => simp [validateInvoiceForms, hp] at h
  | ok p =>
    exact ⟨p, rfl, by simp [createInvoice, validateInvoiceForms, hp],
      by simp [createInvoice, validateInvoiceForms, hp],
      by simp [updateInvoice, validateInvoiceForms, hp],
      by simp [updateInvoice, validateInvoiceForms, hp]⟩

/-- Claim C9, witness: a fully valid form. -/
theorem second_parse_always_succeeds_witness :
    ∃ p : ParsedInvoice,
      safeParseCreateInvoice ⟨.str "c1", .str "45.5", .str "pending"⟩ = .ok p ∧
      (createInvoice false "2024-01-01" ⟨.str "c1", .str "45.5", .str "pending"⟩).1 = none ∧
      (createInvoice false "2024-01-01" ⟨.str "c1", .str "45.5", .str "pending"⟩).2.inserted ≠ none ∧
      (updateInvoice false (some "i1") ⟨.str "c1", .str "45.5", .str "pending"⟩).1 = none ∧
      (updateInvoice false (some "i1") ⟨.str "c1", .str "45.5", .str "pending"⟩).2.updated ≠ none :=
  second_parse_always_succeeds ⟨.str "c1", .str "45.5", .str "pending"⟩
    "2024-01-01" (some "i1") (by decide)

/-- Claim C10: `deleteInvoice` returns the success message only when both
the delete statement and the path invalidation completed without raising;
when the invalidation raises after the delete succeeded, the caller
receives the generic failure message even though the record was removed. -/
theorem deleteInvoice_success_message_requires_both
    (id : String) (sqlFails revalidateFails : Bool)
    (h : (deleteInvoice sqlFails revalidateFails id).1.message = some "Deleted Invoice.") :
    sqlFails = false ∧ revalidateFails = false ∧
    deleteInvoice false true id
      = ({ message := some "Something went wrong" },
         { deleted := some id, revalidated := false }) := by
  cases sqlFails <;> cases revalidateFails <;> simp_all [deleteInvoice]

/-- Claim C10, witness: a run where both calls succeed carries the success
message, and the invalidation-raising run on the same id keeps the record
removed while reporting the generic failure. -/
theorem deleteInvoice_success_message_requires_both_witness :
    false = false ∧ false = false ∧
    deleteInvoice false true "x"
      = ({ message := some "Something went wrong" },
         { deleted := some "x", revalidated := false }) :=
  deleteInvoice_success_message_requires_both "x" false false (by decide)
